import Mathlib

/-!
Verification of the parameter-validation subsystem and the API client glue
of the snippets repository, as a shallow embedding in Lean.

`required_params.py` is embedded as follows: a Python dict of parameters
becomes an association list whose keys alone are consulted (`memKey`); the
mutable private error list of `BaseCheck` becomes an explicit
`BaseCheckState` threaded through the checks; `check_params` returns both
the Python return value (an `Option (List String)`, `none` for Python
`None`) and the final instance state; the subclass registry
`BaseCheck.__subclasses__()` becomes the literal list `registry` in class
definition order; the decorator's `set_errors` and `wrapper` become the
functions of the same names, with raising `MissingParams` modelled by the
`CallResult.raised` constructor.

`vk/vk.py` and `vk/methods.py` are embedded only at the boundary the
claims need: the method catalog, and `_send_api_request` with the network
transport and URL construction (excluded collaborators in the spec)
abstracted as function parameters.
-/

/-- A Python dict as an association list; validation only tests key
membership. -/
abbrev PyDict (α : Type) := List (String × α)

/-- Key membership in a dict, the meaning of Python's `k in params`. -/
def memKey {α : Type} (d : PyDict α) (k : String) : Bool :=
  d.any (fun kv => kv.1 == k)

/-- `params or ()` from `BaseCheck.__init__`: a falsy value (Python `None`
or an empty dict) is replaced by the empty tuple. -/
def paramsOrEmpty {α : Type} : Option (PyDict α) → PyDict α
  | none => []
  | some d => if d.isEmpty then [] else d

/-- The state every `BaseCheck` instance carries: the private `__errors`
list (the `errors` getter returns `tuple(__errors)`, modelled as reading
the list) and `_error_status_code`. -/
structure BaseCheckState where
  errors : List String
  error_status_code : Nat
  deriving DecidableEq

/-- `BaseCheck.__init__`: fresh empty error list, status code 400. -/
def BaseCheckState.init : BaseCheckState := ⟨[], 400⟩

/-- The `errors` property setter: `self.__errors.append(val)`. -/
def BaseCheckState.setErrors (s : BaseCheckState) (val : String) : BaseCheckState :=
  { s with errors := s.errors ++ [val] }

/-- The `**parameters` configuration bag, restricted to the two keys the
checks read via `parameters.get(...)`; `none` models an absent key. -/
structure Parameters where
  required_params : Option (List String)
  or_params : Option (List (List String))

/-- Python truthiness of an optional list: `None` and `[]`/`()` are falsy. -/
def optListFalsy {β : Type} : Option (List β) → Bool
  | none => true
  | some [] => true
  | some (_ :: _) => false

/-- The `RequiredParamsCheck` instance: its parameter set, its slice of the
configuration, and its accumulator state. -/
structure RequiredParamsCheck (α : Type) where
  params : PyDict α
  required_params : Option (List String)
  st : BaseCheckState

/-- `RequiredParamsCheck.__init__`. -/
def RequiredParamsCheck.mkCheck {α : Type} (params : Option (PyDict α))
    (parameters : Parameters) : RequiredParamsCheck α :=
  ⟨paramsOrEmpty params, parameters.required_params, BaseCheckState.init⟩

/-- `RequiredParamsCheck.error_message.format(name)`: the template
ends in the placeholder, so formatting is appending the name. -/
def RequiredParamsCheck.error_message (name : String) : String :=
  "Отсутствует обязательный параметр " ++ name

/-- `RequiredParamsCheck._check_param`. -/
def RequiredParamsCheck.check_param {α : Type} (c : RequiredParamsCheck α)
    (required_param : String) : Bool :=
  memKey c.params required_param

/-- One iteration of the loop in `RequiredParamsCheck.check_params`:
append an error when the required parameter is absent. -/
def RequiredParamsCheck.step {α : Type} (acc : RequiredParamsCheck α)
    (required_param : String) : RequiredParamsCheck α :=
  if acc.check_param required_param then acc
  else { acc with st := acc.st.setErrors (RequiredParamsCheck.error_message required_param) }

/-- `RequiredParamsCheck.check_params`: `None` when the configured list is
falsy, otherwise the accumulated error tuple, paired with the final
instance state. -/
def RequiredParamsCheck.check_params {α : Type} (c : RequiredParamsCheck α) :
    Option (List String) × RequiredParamsCheck α :=
  if optListFalsy c.required_params then (none, c)
  else
    let c' := (c.required_params.getD []).foldl RequiredParamsCheck.step c
    (some c'.st.errors, c')

/-- The `OrParamsCheck` instance. -/
structure OrParamsCheck (α : Type) where
  params : PyDict α
  or_params : Option (List (List String))
  st : BaseCheckState

/-- `OrParamsCheck.__init__`. -/
def OrParamsCheck.mkCheck {α : Type} (params : Option (PyDict α))
    (parameters : Parameters) : OrParamsCheck α :=
  ⟨paramsOrEmpty params, parameters.or_params, BaseCheckState.init⟩

/-- `OrParamsCheck.error_message.format(joined)` with the trailing
placeholder, applied to `", ".join(or_params)`. -/
def OrParamsCheck.error_message (joined : String) : String :=
  "Отсутвтвует как минимум один из обязательных параметров " ++ joined

/-- `OrParamsCheck._check_param`: at least one member of the group is
present. -/
def OrParamsCheck.check_param {α : Type} (c : OrParamsCheck α)
    (or_params : List String) : Bool :=
  or_params.any (fun param => memKey c.params param)

/-- One iteration of the loop in `OrParamsCheck.check_params`. -/
def OrParamsCheck.step {α : Type} (acc : OrParamsCheck α)
    (or_params : List String) : OrParamsCheck α :=
  if acc.check_param or_params then acc
  else { acc with st := acc.st.setErrors (OrParamsCheck.error_message (String.intercalate ", " or_params)) }

/-- `OrParamsCheck.check_params`. -/
def OrParamsCheck.check_params {α : Type} (c : OrParamsCheck α) :
    Option (List String) × OrParamsCheck α :=
  if optListFalsy c.or_params then (none, c)
  else
    let c' := (c.or_params.getD []).foldl OrParamsCheck.step c
    (some c'.st.errors, c')

/-- The two registered concrete `BaseCheck` subclasses. -/
inductive CheckerKind where
  | required
  | orGroup
  deriving DecidableEq

/-- `BaseCheck.__subclasses__()`: the registry, in class definition order
(`RequiredParamsCheck` is defined before `OrParamsCheck` in the file). -/
def registry : List CheckerKind := [CheckerKind.required, CheckerKind.orGroup]

/-- `checker_cls(params, **parameters).check_params()` for one registry
entry: the Python return value of the check. -/
def runChecker {α : Type} (k : CheckerKind) (params : Option (PyDict α))
    (parameters : Parameters) : Option (List String) :=
  match k with
  | CheckerKind.required => (RequiredParamsCheck.mkCheck params parameters).check_params.1
  | CheckerKind.orGroup => (OrParamsCheck.mkCheck params parameters).check_params.1

/-- `if e := checker_cls(...).check_params(): errors.extend(e)` — a falsy
result (`None` or an empty tuple) contributes nothing. -/
def truthyContribution : Option (List String) → List String
  | none => []
  | some e => if e.isEmpty then [] else e

/-- `set_errors` from the decorator: run every registered checker on the
parameter set and the full configuration bag, concatenating the truthy
results in registry order. -/
def set_errors {α : Type} (params : Option (PyDict α)) (parameters : Parameters) :
    List String :=
  registry.foldl (fun errors k => errors ++ truthyContribution (runChecker k params parameters)) []

/-- One invocation of a wrapped operation: positional arguments and keyword
arguments whose values are parameter dicts. -/
structure Invocation (α : Type) where
  args : List (PyDict α)
  kwargs : List (String × PyDict α)

/-- `kwargs.get('params')` inside `wrapper`. -/
def Invocation.getParams {α : Type} (inv : Invocation α) : Option (PyDict α) :=
  List.lookup "params" inv.kwargs

/-- Outcome of calling a wrapped operation: either `MissingParams` is
raised carrying the aggregate error list, or the wrapped function's result
is returned. -/
inductive CallResult (ρ : Type) where
  | raised (errors : List String)
  | returned (value : ρ)
  deriving DecidableEq

/-- `wrapper` from the `check_params` decorator: validate
`kwargs.get('params')`, raise `MissingParams(errors)` when errors exist,
otherwise call through with the original arguments. -/
def wrapper {α ρ : Type} (parameters : Parameters) (func : Invocation α → ρ)
    (inv : Invocation α) : CallResult ρ :=
  let errors := set_errors (Invocation.getParams inv) parameters
  if errors.isEmpty then CallResult.returned (func inv) else CallResult.raised errors

/-- A JSON value, for request parameter values and response bodies. -/
inductive JsonVal where
  | null
  | bool (b : Bool)
  | num (n : Int)
  | str (s : String)
  | arr (elems : List JsonVal)
  | obj (fields : List (String × JsonVal))

/-- `VkApiResponse`: a body and a status code. -/
structure VkApiResponse where
  body : JsonVal
  status_code : Nat

/-- `VkApiMethods.__http_methods`: the catalog mapping each known remote
operation name to its HTTP verb. -/
def VkApiMethods.http_methods : List (String × String) :=
  [("wall.createComment", "POST"),
   ("wall.getComment", "GET"),
   ("wall.getComments", "GET"),
   ("wall.getLikes", "GET"),
   ("wall.getReposts", "GET"),
   ("messages.getConversations", "GET"),
   ("messages.getHistory", "GET"),
   ("wall.get", "GET"),
   ("users.get", "GET"),
   ("wall.post", "POST"),
   ("wall.delete", "POST"),
   ("messages.send", "POST"),
   ("groups.getCallbackConfirmationCode", "GET"),
   ("groups.addCallbackServer", "POST"),
   ("groups.getCallbackServers", "GET"),
   ("photos.getWallUploadServer", "POST"),
   ("photos.saveWallPhoto", "POST"),
   ("video.save", "POST")]

/-- `VkApiMethods.get_http_method`: `__http_methods.get(rpc_method)`. -/
def VkApiMethods.get_http_method (rpc_method : String) : Option String :=
  VkApiMethods.http_methods.lookup rpc_method

/-- `VkApiMethods.has_method`: `method in cls.__http_methods`. -/
def VkApiMethods.has_method (method : String) : Bool :=
  (VkApiMethods.http_methods.lookup method).isSome

/-- What the transport hands back: the HTTP status code and the result of
`response.json()`, with `none` standing for `JSONDecodeError`. -/
structure TransportResponse where
  status_code : Nat
  json : Option JsonVal

/-- The network transport `requests.request(method=..., url=...)`, an
excluded collaborator, abstracted as a function of the HTTP verb and url. -/
abbrev Transport := Option String → String → TransportResponse

/-- URL construction (`_get_url` and `VkApiMethods.get_url`), an excluded
collaborator, abstracted as a function of the api method and parameters. -/
abbrev GetUrl := String → PyDict JsonVal → String

/-- The `\x7b'response': \x7b'error': msg\x7d\x7d` body shape used by
`_send_api_request` for its own error responses. -/
def errorBody (msg : String) : JsonVal :=
  JsonVal.obj [("response", JsonVal.obj [("error", JsonVal.str msg)])]

/-- `VkApi._send_api_request`: 404 with a fixed body when the method is
not in the catalog (before any url building or network call); otherwise
issue the request, answer 502 with a fixed body when the response body is
not parseable JSON, and otherwise pass the parsed body and the transport
status code through. -/
def send_api_request (transport : Transport) (get_url : GetUrl)
    (api_method : String) (params : PyDict JsonVal) : VkApiResponse :=
  if !VkApiMethods.has_method api_method then
    ⟨errorBody "Метод не существует", 404⟩
  else
    let url := get_url api_method params
    let response := transport (VkApiMethods.get_http_method api_method) url
    match response.json with
    | none => ⟨errorBody "Сервер не вернул валидный json.", 502⟩
    | some response_body => ⟨response_body, response.status_code⟩

/-- The configuration `delete_post` binds at declaration time:
`required_params=('post_id',)`. -/
def delete_post_config : Parameters := ⟨some ["post_id"], none⟩

/-- `VkApi.delete_post` as a wrapped operation: its body delegates to the
transport; the decorator with `delete_post_config` guards it. -/
def delete_post {ρ : Type} (body : Invocation JsonVal → ρ)
    (inv : Invocation JsonVal) : CallResult ρ :=
  wrapper delete_post_config body inv

/-- The Python return value of a check, as the list of errors it
contributes (`None` contributing nothing), for stating per-rule results. -/
def checkErrors {β : Type} (r : Option (List String) × β) : List String :=
  r.1.getD []

/-- The errors the required-parameters rule owes on parameter set `P` and
configured names `R`: one per absent name, in the order of `R`. -/
def requiredErrors {α : Type} (P : PyDict α) (R : List String) : List String :=
  (R.filter (fun n => !memKey P n)).map RequiredParamsCheck.error_message

/-- The errors the alternative-group rule owes on parameter set `P` and
configured groups `G`: one per group with no member present, in the order
of `G`. -/
def orErrors {α : Type} (P : PyDict α) (G : List (List String)) : List String :=
  (G.filter (fun g => !g.any (fun p => memKey P p))).map
    (fun g => OrParamsCheck.error_message (String.intercalate ", " g))

theorem required_step_params {α : Type} (acc : RequiredParamsCheck α) (r : String) :
    (RequiredParamsCheck.step acc r).params = acc.params := by
  unfold RequiredParamsCheck.step
  split <;> rfl

theorem required_foldl_errors {α : Type} (R : List String) (acc : RequiredParamsCheck α) :
    (R.foldl RequiredParamsCheck.step acc).st.errors =
      acc.st.errors ++ requiredErrors acc.params R := by
  induction R generalizing acc with
  | nil => simp [requiredErrors]
  | cons r R ih =>
    rw [List.foldl_cons, ih, required_step_params]
    by_cases h : memKey acc.params r
    · have hs : RequiredParamsCheck.step acc r = acc := by
        simp [RequiredParamsCheck.step, RequiredParamsCheck.check_param, h]
      rw [hs]
      simp [requiredErrors, List.filter_cons, h]
    · have hs : (RequiredParamsCheck.step acc r).st.errors =
          acc.st.errors ++ [RequiredParamsCheck.error_message r] := by
        simp [RequiredParamsCheck.step, RequiredParamsCheck.check_param, h,
          BaseCheckState.setErrors]
      rw [hs]
      simp [requiredErrors, List.filter_cons, h]

theorem required_check_params_fst {α : Type} (c : RequiredParamsCheck α) :
    c.check_params.1 = if optListFalsy c.required_params then none
      else some (c.st.errors ++ requiredErrors c.params (c.required_params.getD [])) := by
  unfold RequiredParamsCheck.check_params
  split <;> simp [required_foldl_errors]

theorem required_check_params_snd {α : Type} (c : RequiredParamsCheck α) :
    c.check_params.2.st.errors = if optListFalsy c.required_params then c.st.errors
      else c.st.errors ++ requiredErrors c.params (c.required_params.getD []) := by
  unfold RequiredParamsCheck.check_params
  split <;> simp [required_foldl_errors]

theorem or_step_params {α : Type} (acc : OrParamsCheck α) (g : List String) :
    (OrParamsCheck.step acc g).params = acc.params := by
  unfold OrParamsCheck.step
  split <;> rfl

theorem or_foldl_errors {α : Type} (G : List (List String)) (acc : OrParamsCheck α) :
    (G.foldl OrParamsCheck.step acc).st.errors =
      acc.st.errors ++ orErrors acc.params G := by
  induction G generalizing acc with
  | nil => simp [orErrors]
  | cons g G ih =>
    rw [List.foldl_cons, ih, or_step_params]
    by_cases h : OrParamsCheck.check_param acc g
    · have hs : OrParamsCheck.step acc g = acc := by
        simp [OrParamsCheck.step, h]
      rw [hs]
      have hm : g.any (fun p => memKey acc.params p) = true := h
      simp [orErrors, List.filter_cons, hm]
    · have hs : (OrParamsCheck.step acc g).st.errors =
          acc.st.errors ++ [OrParamsCheck.error_message (String.intercalate ", " g)] := by
        simp [OrParamsCheck.step, h, BaseCheckState.setErrors]
      rw [hs]
      have hm : g.any (fun p => memKey acc.params p) = false := by
        simpa [OrParamsCheck.check_param] using h
      simp [orErrors, List.filter_cons, hm]

theorem or_check_params_fst {α : Type} (c : OrParamsCheck α) :
    c.check_params.1 = if optListFalsy c.or_params then none
      else some (c.st.errors ++ orErrors c.params (c.or_params.getD [])) := by
  unfold OrParamsCheck.check_params
  split <;> simp [or_foldl_errors]

theorem or_check_params_snd {α : Type} (c : OrParamsCheck α) :
    c.check_params.2.st.errors = if optListFalsy c.or_params then c.st.errors
      else c.st.errors ++ orErrors c.params (c.or_params.getD []) := by
  unfold OrParamsCheck.check_params
  split <;> simp [or_foldl_errors]

theorem truthy_some (l : List String) : truthyContribution (some l) = l := by
  cases l <;> simp [truthyContribution]

theorem required_contribution {α : Type} (params : Option (PyDict α)) (cfg : Parameters) :
    truthyContribution (RequiredParamsCheck.mkCheck params cfg).check_params.1 =
      requiredErrors (paramsOrEmpty params) (cfg.required_params.getD []) := by
  rw [required_check_params_fst]
  cases hcfg : cfg.required_params with
  | none =>
    simp [RequiredParamsCheck.mkCheck, hcfg, optListFalsy, truthyContribution,
      requiredErrors, BaseCheckState.init]
  | some R =>
    cases R with
    | nil =>
      simp [RequiredParamsCheck.mkCheck, hcfg, optListFalsy, truthyContribution,
        requiredErrors, BaseCheckState.init]
    | cons r rs =>
      simp [RequiredParamsCheck.mkCheck, hcfg, optListFalsy, truthy_some,
        BaseCheckState.init]

theorem or_contribution {α : Type} (params : Option (PyDict α)) (cfg : Parameters) :
    truthyContribution (OrParamsCheck.mkCheck params cfg).check_params.1 =
      orErrors (paramsOrEmpty params) (cfg.or_params.getD []) := by
  rw [or_check_params_fst]
  cases hcfg : cfg.or_params with
  | none =>
    simp [OrParamsCheck.mkCheck, hcfg, optListFalsy, truthyContribution,
      orErrors, BaseCheckState.init]
  | some G =>
    cases G with
    | nil =>
      simp [OrParamsCheck.mkCheck, hcfg, optListFalsy, truthyContribution,
        orErrors, BaseCheckState.init]
    | cons g gs =>
      simp [OrParamsCheck.mkCheck, hcfg, optListFalsy, truthy_some,
        BaseCheckState.init]

theorem set_errors_eq {α : Type} (params : Option (PyDict α)) (cfg : Parameters) :
    set_errors params cfg =
      requiredErrors (paramsOrEmpty params) (cfg.required_params.getD []) ++
      orErrors (paramsOrEmpty params) (cfg.or_params.getD []) := by
  unfold set_errors registry
  simp only [List.foldl_cons, List.foldl_nil, List.nil_append]
  unfold runChecker
  rw [required_contribution, or_contribution]

theorem checkErrors_eq_truthy {β : Type} (r : Option (List String) × β) :
    checkErrors r = truthyContribution r.1 := by
  rcases r with ⟨fst, snd⟩
  cases fst with
  | none => rfl
  | some l => simp [checkErrors, truthy_some]

theorem required_checkErrors {α : Type} (params : Option (PyDict α)) (cfg : Parameters) :
    checkErrors (RequiredParamsCheck.mkCheck params cfg).check_params =
      requiredErrors (paramsOrEmpty params) (cfg.required_params.getD []) := by
  rw [checkErrors_eq_truthy, required_contribution]

theorem or_checkErrors {α : Type} (params : Option (PyDict α)) (cfg : Parameters) :
    checkErrors (OrParamsCheck.mkCheck params cfg).check_params =
      orErrors (paramsOrEmpty params) (cfg.or_params.getD []) := by
  rw [checkErrors_eq_truthy, or_contribution]

theorem memKey_paramsOrEmpty {α : Type} (P : PyDict α) (k : String) :
    memKey (paramsOrEmpty (some P)) k = memKey P k := by
  cases P <;> simp [paramsOrEmpty, memKey]

theorem requiredErrors_congr {α β : Type} (P : PyDict α) (Q : PyDict β)
    (h : ∀ k, memKey P k = memKey Q k) (R : List String) :
    requiredErrors P R = requiredErrors Q R := by
  have hm : memKey P = memKey Q := funext h
  unfold requiredErrors
  rw [hm]

theorem orErrors_congr {α β : Type} (P : PyDict α) (Q : PyDict β)
    (h : ∀ k, memKey P k = memKey Q k) (G : List (List String)) :
    orErrors P G = orErrors Q G := by
  have hm : memKey P = memKey Q := funext h
  unfold orErrors
  rw [hm]

/-- C1: for every operation wrapped by the validation decorator with a fixed
configuration and every invocation, if `set_errors` on the invocation's
parameter set is non-empty then `MissingParams` is raised carrying the full
aggregate and the wrapped function body never runs (the outcome is the same
for every possible body); if the aggregate is empty, the wrapped function is
invoked with the original arguments and its result is returned unchanged. -/
theorem wrapper_admission_control {α ρ : Type} (cfg : Parameters)
    (f g : Invocation α → ρ) (inv : Invocation α) :
    (set_errors (Invocation.getParams inv) cfg ≠ [] →
      wrapper cfg f inv = CallResult.raised (set_errors (Invocation.getParams inv) cfg) ∧
      wrapper cfg f inv = wrapper cfg g inv) ∧
    (set_errors (Invocation.getParams inv) cfg = [] →
      wrapper cfg f inv = CallResult.returned (f inv)) := by
  unfold wrapper
  constructor
  · intro h
    have hne : (set_errors (Invocation.getParams inv) cfg).isEmpty = false := by
      cases hl : set_errors (Invocation.getParams inv) cfg with
      | nil => exact absurd hl h
      | cons a l => rfl
    simp only [hne]
    exact ⟨rfl, rfl⟩
  · intro h
    simp only [h]
    rfl

theorem wrapper_admission_control_witness :
    wrapper (α := Nat) (ρ := Nat) delete_post_config (fun _ => 7) ⟨[], []⟩ =
      CallResult.raised [RequiredParamsCheck.error_message "post_id"] ∧
    wrapper (α := Nat) (ρ := Nat) ⟨none, none⟩ (fun _ => 7) ⟨[], []⟩ =
      CallResult.returned 7 := by
  constructor
  · have h := (wrapper_admission_control (α := Nat) (ρ := Nat) delete_post_config
      (fun _ => 7) (fun _ => 7) ⟨[], []⟩).1 (by decide)
    rw [h.1]
    rfl
  · exact (wrapper_admission_control (α := Nat) (ρ := Nat) ⟨none, none⟩
      (fun _ => 7) (fun _ => 7) ⟨[], []⟩).2 rfl

/-- C2: for every ParameterSet `P` and every required-parameters
configuration `R`, the check produces exactly one error per name of `R`
absent from `P`, in the order of `R`, and no errors when every name of `R`
is present, including when `R` is empty. -/
theorem required_check_exact_errors {α : Type} (P : PyDict α) (R : List String)
    (G : Option (List (List String))) :
    checkErrors (RequiredParamsCheck.mkCheck (some P) ⟨some R, G⟩).check_params =
      (R.filter (fun n => !memKey P n)).map RequiredParamsCheck.error_message ∧
    ((∀ n ∈ R, memKey P n = true) →
      checkErrors (RequiredParamsCheck.mkCheck (some P) ⟨some R, G⟩).check_params = []) := by
  have hmain : checkErrors (RequiredParamsCheck.mkCheck (some P) ⟨some R, G⟩).check_params =
      requiredErrors P R := by
    rw [required_checkErrors]
    exact requiredErrors_congr _ _ (memKey_paramsOrEmpty P) R
  constructor
  · exact hmain
  · intro hall
    rw [hmain]
    have hfilter : R.filter (fun n => !memKey P n) = [] := by
      apply List.filter_eq_nil_iff.mpr
      intro n hn
      simp [hall n hn]
    simp [requiredErrors, hfilter]

theorem required_check_exact_errors_witness :
    checkErrors (RequiredParamsCheck.mkCheck (α := Nat) (some [("post_id", 1)])
      ⟨some ["post_id"], none⟩).check_params = [] :=
  (required_check_exact_errors [("post_id", 1)] ["post_id"] none).2
    (by intro n hn; simp at hn; simp [hn, memKey])

/-- C3: for every ParameterSet `P` and alternative-group configuration `G`,
the check produces exactly one error per group with no member present, in
group-declaration order, and none when every group has a member present;
in particular the empty ParameterSet with two fully-absent groups yields
exactly two errors, one per group, in order. -/
theorem or_check_exact_errors {α : Type} (P : PyDict α) (G : List (List String))
    (R : Option (List String)) :
    checkErrors (OrParamsCheck.mkCheck (some P) ⟨R, some G⟩).check_params =
      (G.filter (fun g => !g.any (fun p => memKey P p))).map
        (fun g => OrParamsCheck.error_message (String.intercalate ", " g)) ∧
    ((∀ g ∈ G, g.any (fun p => memKey P p) = true) →
      checkErrors (OrParamsCheck.mkCheck (some P) ⟨R, some G⟩).check_params = []) ∧
    set_errors (α := Nat) (some [])
        ⟨none, some [["peer_id", "user_id"], ["message", "attachment"]]⟩ =
      [OrParamsCheck.error_message "peer_id, user_id",
       OrParamsCheck.error_message "message, attachment"] := by
  have hmain : checkErrors (OrParamsCheck.mkCheck (some P) ⟨R, some G⟩).check_params =
      orErrors P G := by
    rw [or_checkErrors]
    exact orErrors_congr _ _ (memKey_paramsOrEmpty P) G
  refine ⟨hmain, ?_, by rfl⟩
  intro hall
  rw [hmain]
  have hfilter : G.filter (fun g => !g.any (fun p => memKey P p)) = [] := by
    apply List.filter_eq_nil_iff.mpr
    intro g hg
    simp [hall g hg]
  simp [orErrors, hfilter]

theorem or_check_exact_errors_witness :
    checkErrors (OrParamsCheck.mkCheck (α := Nat) (some [("message", 1)])
      ⟨none, some [["message", "attachments"]]⟩).check_params = [] :=
  (or_check_exact_errors [("message", 1)] [["message", "attachments"]] none).2.1
    (by intro g hg; simp at hg; simp [hg, memKey])

/-- C4: for every ParameterSet and configuration, `set_errors` runs both
registered rules — the alternative-group rule's contribution is its full
standalone check result even when the required rule produced errors — and
returns the concatenation of their error lists in registry (definition)
order, each rule's errors in its own configuration order. -/
theorem set_errors_concatenation {α : Type} (params : Option (PyDict α))
    (cfg : Parameters) :
    set_errors params cfg =
      checkErrors (RequiredParamsCheck.mkCheck params cfg).check_params ++
      checkErrors (OrParamsCheck.mkCheck params cfg).check_params := by
  rw [set_errors_eq, required_checkErrors, or_checkErrors]

/-- C5, counterexample: for the empty ParameterSet and the configuration
requiring only `post_id`, `set_errors` does NOT return the aggregate
`["missing required parameter post_id"]` asserted by the claim — the
message the code formats is in Russian. -/
theorem scenario_b_message_counterexample :
    set_errors (α := Nat) (some []) ⟨some ["post_id"], none⟩ ≠
      ["missing required parameter post_id"] := by
  decide

/-- C5, amended: for the empty ParameterSet and the configuration requiring
only `post_id`, `set_errors` returns exactly the one-element aggregate
`["Отсутствует обязательный параметр post_id"]`; in general, for each
required name not present, the required-parameters rule appends the error
string `"Отсутствует обязательный параметр "` followed by the name. -/
theorem required_error_message_form {α : Type} (P : PyDict α) (R : List String)
    (G : Option (List (List String))) :
    set_errors (α := Nat) (some []) ⟨some ["post_id"], none⟩ =
      ["Отсутствует обязательный параметр post_id"] ∧
    checkErrors (RequiredParamsCheck.mkCheck (some P) ⟨some R, G⟩).check_params =
      (R.filter (fun n => !memKey P n)).map
        (fun n => "Отсутствует обязательный параметр " ++ n) := by
  constructor
  · rfl
  · rw [required_checkErrors]
    have h := requiredErrors_congr _ _ (memKey_paramsOrEmpty P) R
    simp only [Option.getD_some] at h ⊢
    rw [h]
    rfl

/-- C6: a rule whose configuration key is absent (`none`) or whose
configured sequence is empty contributes no errors; in particular for the
ParameterSet containing `comment_id` with one satisfied group and an empty
required list, `set_errors` returns the empty aggregate. -/
theorem empty_config_noop {α : Type} (params : Option (PyDict α)) (cfg : Parameters) :
    (cfg.required_params = none ∨ cfg.required_params = some [] →
      checkErrors (RequiredParamsCheck.mkCheck params cfg).check_params = []) ∧
    (cfg.or_params = none ∨ cfg.or_params = some [] →
      checkErrors (OrParamsCheck.mkCheck params cfg).check_params = []) ∧
    set_errors (α := Nat) (some [("comment_id", 5)])
      ⟨some [], some [["post_id", "comment_id"]]⟩ = [] := by
  refine ⟨?_, ?_, by rfl⟩
  · intro h
    rw [required_checkErrors]
    rcases h with h | h <;> simp [h, requiredErrors]
  · intro h
    rw [or_checkErrors]
    rcases h with h | h <;> simp [h, orErrors]

theorem empty_config_noop_witness :
    checkErrors (RequiredParamsCheck.mkCheck (α := Nat) (some [("x", 1)])
      ⟨none, none⟩).check_params = [] ∧
    checkErrors (OrParamsCheck.mkCheck (α := Nat) (some [("x", 1)])
      ⟨none, some []⟩).check_params = [] :=
  ⟨(empty_config_noop (some [("x", 1)]) ⟨none, none⟩).1 (Or.inl rfl),
   (empty_config_noop (some [("x", 1)]) ⟨none, some []⟩).2.1 (Or.inr rfl)⟩

/-- C7: a requested operation name outside the method catalog yields the
fixed 404 client-error response without consulting the transport or url
builder at all; a transport response whose body is not parseable JSON
yields the fixed 502 server-error response; validation failures, by
contrast, are raised to the caller and are never a returned response. -/
theorem send_api_request_error_normalization :
    (∀ (t t' : Transport) (g g' : GetUrl) (m : String) (params : PyDict JsonVal),
      VkApiMethods.has_method m = false →
        send_api_request t g m params = ⟨errorBody "Метод не существует", 404⟩ ∧
        send_api_request t g m params = send_api_request t' g' m params) ∧
    (∀ (t : Transport) (g : GetUrl) (m : String) (params : PyDict JsonVal),
      VkApiMethods.has_method m = true →
      (t (VkApiMethods.get_http_method m) (g m params)).json = none →
        send_api_request t g m params = ⟨errorBody "Сервер не вернул валидный json.", 502⟩) ∧
    (∀ (α ρ : Type) (cfg : Parameters) (f : Invocation α → ρ) (inv : Invocation α),
      set_errors (Invocation.getParams inv) cfg ≠ [] →
        wrapper cfg f inv = CallResult.raised (set_errors (Invocation.getParams inv) cfg) ∧
        ∀ v : ρ, wrapper cfg f inv ≠ CallResult.returned v) := by
  refine ⟨?_, ?_, ?_⟩
  · intro t t' g g' m params h
    unfold send_api_request
    simp only [h]
    exact ⟨rfl, rfl⟩
  · intro t g m params h hjson
    unfold send_api_request
    simp only [h, Bool.not_true, Bool.false_eq_true, if_false]
    rw [hjson]
  · intro α ρ cfg f inv h
    have hne : (set_errors (Invocation.getParams inv) cfg).isEmpty = false := by
      cases hl : set_errors (Invocation.getParams inv) cfg with
      | nil => exact absurd hl h
      | cons a l => rfl
    unfold wrapper
    simp only [hne]
    exact ⟨rfl, fun v hv => by simp at hv⟩

theorem send_api_request_error_normalization_witness :
    send_api_request (fun _ _ => ⟨200, none⟩) (fun _ _ => "u") "nope" [] =
      ⟨errorBody "Метод не существует", 404⟩ ∧
    send_api_request (fun _ _ => ⟨200, none⟩) (fun _ _ => "u") "wall.get" [] =
      ⟨errorBody "Сервер не вернул валидный json.", 502⟩ ∧
    wrapper (α := Nat) (ρ := Nat) ⟨some ["post_id"], none⟩ (fun _ => 7) ⟨[], []⟩ =
      CallResult.raised [RequiredParamsCheck.error_message "post_id"] := by
  refine ⟨(send_api_request_error_normalization.1 (fun _ _ => ⟨200, none⟩)
      (fun _ _ => ⟨200, none⟩) (fun _ _ => "u") (fun _ _ => "u") "nope" [] rfl).1,
    send_api_request_error_normalization.2.1 (fun _ _ => ⟨200, none⟩)
      (fun _ _ => "u") "wall.get" [] rfl rfl, ?_⟩
  have h := (send_api_request_error_normalization.2.2 Nat Nat ⟨some ["post_id"], none⟩
    (fun _ => 7) ⟨[], []⟩ (by decide)).1
  rw [h]
  rfl

/-- C8: `set_errors` is a deterministic pure function of the configuration
and the key set of the ParameterSet: two ParameterSets with the same key
membership yield identical aggregates regardless of the associated values,
and re-running the same inputs trivially yields the identical aggregate. -/
theorem validate_key_set_deterministic {α β : Type} (P : PyDict α) (Q : PyDict β)
    (cfg : Parameters) (h : ∀ k, memKey P k = memKey Q k) :
    set_errors (some P) cfg = set_errors (some Q) cfg ∧
    set_errors (some P) cfg = set_errors (some P) cfg := by
  refine ⟨?_, rfl⟩
  have h' : ∀ k, memKey (paramsOrEmpty (some P)) k = memKey (paramsOrEmpty (some Q)) k := by
    intro k
    rw [memKey_paramsOrEmpty, memKey_paramsOrEmpty, h]
  rw [set_errors_eq, set_errors_eq,
    requiredErrors_congr _ _ h' (cfg.required_params.getD []),
    orErrors_congr _ _ h' (cfg.or_params.getD [])]

theorem validate_key_set_deterministic_witness :
    set_errors (α := Nat) (some [("post_id", 1)]) ⟨some ["post_id"], none⟩ =
      set_errors (α := String) (some [("post_id", "other value")]) ⟨some ["post_id"], none⟩ :=
  (validate_key_set_deterministic ([("post_id", 1)] : PyDict Nat) ([("post_id", "other value")] : PyDict String)
    ⟨some ["post_id"], none⟩ (fun _ => rfl)).1

/-- C9: the wrapper reads the ParameterSet exclusively from the keyword
argument named `params`: when the invocation has no such keyword (for
example the container was passed positionally), validation runs against the
empty parameter set, so a non-empty required-parameters configuration
raises `MissingParams` — in particular `delete_post` invoked with a
positional container that does contain `post_id` still raises. -/
theorem wrapper_params_keyword_only {α ρ : Type} (cfg : Parameters)
    (f : Invocation α → ρ) (inv : Invocation α)
    (h : List.lookup "params" inv.kwargs = none) :
    set_errors (Invocation.getParams inv) cfg = set_errors (α := α) none cfg ∧
    (∀ (r : String) (R : List String), cfg.required_params = some (r :: R) →
      wrapper cfg f inv = CallResult.raised (set_errors (α := α) none cfg) ∧
      set_errors (α := α) none cfg ≠ []) ∧
    delete_post (fun _ => (0 : Nat)) ⟨[[("post_id", JsonVal.num 1)]], []⟩ =
      CallResult.raised [RequiredParamsCheck.error_message "post_id"] := by
  have hp : Invocation.getParams inv = none := h
  refine ⟨by rw [hp], ?_, by rfl⟩
  intro r R hcfg
  have hne : set_errors (α := α) none cfg ≠ [] := by
    rw [set_errors_eq]
    simp [hcfg, requiredErrors, paramsOrEmpty, memKey]
  have hempty : (set_errors (α := α) none cfg).isEmpty = false := by
    cases hl : set_errors (α := α) none cfg with
    | nil => exact absurd hl hne
    | cons a l => rfl
  refine ⟨?_, hne⟩
  unfold wrapper
  rw [hp]
  simp only [hempty]
  rfl

theorem wrapper_params_keyword_only_witness :
    wrapper (α := Nat) (ρ := Nat) delete_post_config (fun _ => 3)
        ⟨[[("post_id", 1)]], []⟩ =
      CallResult.raised (set_errors (α := Nat) none delete_post_config) ∧
    set_errors (α := Nat) none delete_post_config ≠ [] :=
  (wrapper_params_keyword_only delete_post_config (fun _ => 3)
    ⟨[[("post_id", 1)]], []⟩ rfl).2.1 "post_id" [] rfl

/-- C10: the error accumulator of every rule instance is append-only:
the `errors` setter appends to the private list instead of replacing it,
a freshly constructed instance starts with an empty accumulator and
`error_status_code` 400, `check_params` returns the instance's full
accumulated error tuple whenever it returns a tuple at all, and a check
never shrinks the accumulated sequence (the final accumulator extends the
initial one). -/
theorem errors_accumulator_append_only {α : Type} :
    (∀ (s : BaseCheckState) (v : String),
      (BaseCheckState.setErrors s v).errors = s.errors ++ [v]) ∧
    (BaseCheckState.init.errors = [] ∧ BaseCheckState.init.error_status_code = 400) ∧
    (∀ (params : Option (PyDict α)) (cfg : Parameters),
      (RequiredParamsCheck.mkCheck params cfg).st = BaseCheckState.init ∧
      (OrParamsCheck.mkCheck params cfg).st = BaseCheckState.init) ∧
    (∀ (c : RequiredParamsCheck α) (l : List String),
      c.check_params.1 = some l → l = c.check_params.2.st.errors) ∧
    (∀ c : RequiredParamsCheck α, ∃ t, c.check_params.2.st.errors = c.st.errors ++ t) ∧
    (∀ (c : OrParamsCheck α) (l : List String),
      c.check_params.1 = some l → l = c.check_params.2.st.errors) ∧
    (∀ c : OrParamsCheck α, ∃ t, c.check_params.2.st.errors = c.st.errors ++ t) := by
  refine ⟨fun s v => rfl, ⟨rfl, rfl⟩, fun params cfg => ⟨rfl, rfl⟩, ?_, ?_, ?_, ?_⟩
  · intro c l hsome
    rw [required_check_params_fst] at hsome
    rw [required_check_params_snd]
    cases hf : optListFalsy c.required_params with
    | true => simp [hf] at hsome
    | false =>
      simp only [hf, Bool.false_eq_true, if_false, Option.some.injEq] at hsome ⊢
      exact hsome.symm
  · intro c
    rw [required_check_params_snd]
    cases hf : optListFalsy c.required_params with
    | true => exact ⟨[], by simp [hf]⟩
    | false => exact ⟨requiredErrors c.params (c.required_params.getD []), by simp [hf]⟩
  · intro c l hsome
    rw [or_check_params_fst] at hsome
    rw [or_check_params_snd]
    cases hf : optListFalsy c.or_params with
    | true => simp [hf] at hsome
    | false =>
      simp only [hf, Bool.false_eq_true, if_false, Option.some.injEq] at hsome ⊢
      exact hsome.symm
  · intro c
    rw [or_check_params_snd]
    cases hf : optListFalsy c.or_params with
    | true => exact ⟨[], by simp [hf]⟩
    | false => exact ⟨orErrors c.params (c.or_params.getD []), by simp [hf]⟩

theorem errors_accumulator_append_only_witness :
    [RequiredParamsCheck.error_message "a"] =
      (RequiredParamsCheck.mkCheck (α := Nat) (some []) ⟨some ["a"], none⟩).check_params.2.st.errors ∧
    (BaseCheckState.setErrors BaseCheckState.init "e").errors = [] ++ ["e"] :=
  ⟨(errors_accumulator_append_only (α := Nat)).2.2.2.1 _
      [RequiredParamsCheck.error_message "a"] rfl,
   (errors_accumulator_append_only (α := Nat)).1 BaseCheckState.init "e"⟩
